import Mathlib

/-!
Verification of the Landing Throttle Manager plugin (src/Main.cpp).

The core is a seven-state landing-assist state machine driven by a
periodic flight-loop callback (`StateMachine`), an activation entry
point (`Enable`), and a menu callback that raises a deactivation flag.
Sensor readings (floats in the source) are modelled as rationals, so
all comparisons in the source translate to exact, decidable
comparisons on `ℚ`.  The two X-Plane command holds
(`ThrottleDownCmd`, `ReverseThrustCmd`, driven by `XPLMCommandBegin`
and `XPLMCommandEnd`) are modelled as level-triggered booleans in the
machine state, and every begin/end call is additionally recorded as an
explicit effect so that effect counts per run can be reasoned about.
-/

set_option autoImplicit false

namespace LandingThrottleManager

/-- The `states_t` enumeration of Main.cpp (lines 58-67). -/
inductive states_t where
  | WAIT_FOR_USER
  | START
  | THROTTLE_DOWN
  | WAIT_FOR_IDLE_THROTTLE
  | WAIT_FOR_TOUCHDOWN
  | APPLY_REVERSE
  | WAIT_FOR_END_OF_REVERSE
deriving DecidableEq, Repr

/-- One snapshot of the dataref values the plugin reads.  Floats are
modelled as rationals; `AllWheelsOnGround` is read as an int compared
against TRUE, modelled as `Bool`. -/
structure Sensors where
  ThrottleRatio : ℚ
  IndicatedAirSpeed : ℚ
  AllWheelsOnGround : Bool
  FlapAngle : ℚ
  GearDeployRatio : ℚ
  AltitudeAboveGround : ℚ
deriving DecidableEq, Repr

/-- The mutable globals of Main.cpp: `CurrentState` (line 83) and
`DeactivationRequested` (line 85), plus the level of the two actuator
holds (the X-Plane commands stay active from `XPLMCommandBegin` until
`XPLMCommandEnd`). -/
structure Machine where
  CurrentState : states_t
  DeactivationRequested : Bool
  ThrottleDownHold : Bool
  ReverseThrustHold : Bool
deriving DecidableEq, Repr

/-- State at plugin start: `CurrentState = WAIT_FOR_USER` (line 474),
deactivation flag clear, no hold active. -/
def initialMachine : Machine :=
  { CurrentState := .WAIT_FOR_USER
    DeactivationRequested := false
    ThrottleDownHold := false
    ReverseThrustHold := false }

/-- An actuator-gateway call made during a tick: `XPLMCommandBegin` /
`XPLMCommandEnd` on `ThrottleDownCmd` or `ReverseThrustCmd`. -/
inductive Effect where
  | beginThrottleDown
  | endThrottleDown
  | beginReverse
  | endReverse
deriving DecidableEq, Repr

/-- Configuration constant `MIN_SPEED_REVERSE_THRUST` (line 38). -/
def MIN_SPEED_REVERSE_THRUST : ℚ := 60

/-- Configuration constant `MAX_AIRSPEED` (line 40). -/
def MAX_AIRSPEED : ℚ := 160

/-- Configuration constant `MIN_FLAP_ANGLE` (line 42). -/
def MIN_FLAP_ANGLE : ℚ := 18

/-- Configuration constant `MAX_ALTITUDE` (line 44), 152.4 m, given in
lowest terms 762/5 so that comparisons against it are kernel-reducible;
the lemma `MAX_ALTITUDE_eq` certifies the value. -/
def MAX_ALTITUDE : ℚ := ⟨762, 5, by decide, by decide⟩

/-- Configuration constant `GEAR_DOWN_RATIO` (line 49). -/
def GEAR_DOWN_RATIO : ℚ := 1

/-- The flight-loop callback `StateMachine` (Main.cpp lines 113-263):
one switch on `CurrentState`, returning the updated globals together
with the list of actuator commands issued during the tick. -/
def StateMachine (m : Machine) (s : Sensors) : Machine × List Effect :=
  match m.CurrentState with
  | .WAIT_FOR_USER => (m, [])
  | .START =>
      if s.ThrottleRatio > 0 then
        ({ m with CurrentState := .THROTTLE_DOWN }, [])
      else
        ({ m with CurrentState := .WAIT_FOR_TOUCHDOWN }, [])
  | .THROTTLE_DOWN =>
      ({ m with CurrentState := .WAIT_FOR_IDLE_THROTTLE
                ThrottleDownHold := true },
       [.beginThrottleDown])
  | .WAIT_FOR_IDLE_THROTTLE =>
      if m.DeactivationRequested then
        ({ m with CurrentState := .WAIT_FOR_USER
                  DeactivationRequested := false
                  ThrottleDownHold := false },
         [.endThrottleDown])
      else if s.ThrottleRatio = 0 then
        ({ m with CurrentState := .WAIT_FOR_TOUCHDOWN
                  ThrottleDownHold := false },
         [.endThrottleDown])
      else
        (m, [])
  | .WAIT_FOR_TOUCHDOWN =>
      if m.DeactivationRequested then
        ({ m with CurrentState := .WAIT_FOR_USER
                  DeactivationRequested := false
                  ReverseThrustHold := false },
         [.endReverse])
      else if s.AllWheelsOnGround then
        ({ m with CurrentState := .APPLY_REVERSE }, [])
      else
        (m, [])
  | .APPLY_REVERSE =>
      if s.IndicatedAirSpeed > MIN_SPEED_REVERSE_THRUST then
        ({ m with CurrentState := .WAIT_FOR_END_OF_REVERSE
                  ReverseThrustHold := true },
         [.beginReverse])
      else
        ({ m with CurrentState := .WAIT_FOR_USER }, [])
  | .WAIT_FOR_END_OF_REVERSE =>
      if m.DeactivationRequested then
        ({ m with CurrentState := .WAIT_FOR_USER
                  DeactivationRequested := false
                  ReverseThrustHold := false },
         [.endReverse])
      else if s.IndicatedAirSpeed ≤ MIN_SPEED_REVERSE_THRUST then
        ({ m with CurrentState := .WAIT_FOR_USER
                  ReverseThrustHold := false },
         [.endReverse])
      else
        (m, [])

/-- A violated activation condition, one per error string appended in
`Enable` (lines 300-303). -/
inductive Violation where
  | AirspeedTooHigh
  | FlapsTooLow
  | GearNotDown
  | AltitudeTooHigh
deriving DecidableEq, Repr

/-- An `XPLMSpeakString` advisory issued by `Enable`: either the
concatenated violation messages (line 304) or "Already enabled"
(line 309). -/
inductive Spoken where
  | violationsMsg (vs : List Violation)
  | alreadyEnabled
deriving DecidableEq, Repr

/-- The list of violated conditions, in the order the source appends
their error strings (lines 300-303); each of the four conditions is
tested by its own independent `if`. -/
def enableViolations (s : Sensors) : List Violation :=
  (if s.IndicatedAirSpeed > MAX_AIRSPEED then [.AirspeedTooHigh] else []) ++
  (if s.FlapAngle < MIN_FLAP_ANGLE then [.FlapsTooLow] else []) ++
  (if s.GearDeployRatio ≠ GEAR_DOWN_RATIO then [.GearNotDown] else []) ++
  (if s.AltitudeAboveGround > MAX_ALTITUDE then [.AltitudeTooHigh] else [])

/-- The `Enable` function (Main.cpp lines 266-311): when
`CurrentState == WAIT_FOR_USER` it reads the sensors and either starts
the state machine (clearing `DeactivationRequested`) or speaks the
violated conditions; otherwise it only speaks "Already enabled".
Returns the updated globals and the advisories spoken. -/
def Enable (m : Machine) (s : Sensors) : Machine × List Spoken :=
  if m.CurrentState = .WAIT_FOR_USER then
    if s.IndicatedAirSpeed ≤ MAX_AIRSPEED ∧ s.FlapAngle ≥ MIN_FLAP_ANGLE ∧
        s.GearDeployRatio = GEAR_DOWN_RATIO ∧ s.AltitudeAboveGround ≤ MAX_ALTITUDE then
      ({ m with DeactivationRequested := false
                CurrentState := .START },
       [])
    else
      (m,
       if (enableViolations s).length > 0 then
         [.violationsMsg (enableViolations s)]
       else
         [])
  else
    (m, [.alreadyEnabled])

/-- The `MENU_ITEM_ID_STOP` branch of `MenuHandlerCallback`
(Main.cpp lines 344-353): sets `DeactivationRequested` only when the
machine is not idle; it speaks nothing in either case. -/
def requestDeactivate (m : Machine) : Machine × List Spoken :=
  if m.CurrentState ≠ .WAIT_FOR_USER then
    ({ m with DeactivationRequested := true }, [])
  else
    (m, [])

/-- One event the host can deliver to the plugin's globals: a flight-loop
tick with the sensor values it reads, an activation request, or a
deactivation request. -/
inductive Step : Machine → Machine → Prop where
  | tick (s : Sensors) (m : Machine) : Step m (StateMachine m s).1
  | activate (s : Sensors) (m : Machine) : Step m (Enable m s).1
  | deactivate (m : Machine) : Step m (requestDeactivate m).1

/-- The globals reachable from the plugin's start state under any
interleaving of ticks and operator intents. -/
inductive Reachable : Machine → Prop where
  | init : Reachable initialMachine
  | step {m m' : Machine} : Reachable m → Step m m' → Reachable m'

/-- Correspondence between the two command holds and the state: the
throttle-down command is held exactly in `WAIT_FOR_IDLE_THROTTLE` and
the reverse-thrust command exactly in `WAIT_FOR_END_OF_REVERSE`. -/
def HoldInv (m : Machine) : Prop :=
  (m.ThrottleDownHold = true ↔ m.CurrentState = .WAIT_FOR_IDLE_THROTTLE) ∧
  (m.ReverseThrustHold = true ↔ m.CurrentState = .WAIT_FOR_END_OF_REVERSE)

/-- An event occurring during one activation cycle: a tick or a
deactivation request.  (An activation request while the machine is not
idle is a no-op on the globals, and one while idle starts the next
cycle, so neither belongs to the events of a single cycle.) -/
inductive CycleOp where
  | tick (s : Sensors)
  | deactivate

/-- Run a list of cycle events from a machine state, collecting the
actuator commands issued. -/
def runCycleOps (m : Machine) : List CycleOp → Machine × List Effect
  | [] => (m, [])
  | CycleOp.tick s :: rest =>
      let t := StateMachine m s
      let r := runCycleOps t.1 rest
      (r.1, t.2 ++ r.2)
  | CycleOp.deactivate :: rest =>
      runCycleOps (requestDeactivate m).1 rest

/-- Book-keeping invariant for the reverse-thrust hold inside one
activation cycle: `nb`/`ne` count the begin/end commands issued to the
reverse-thrust hold since the cycle entered `START`. -/
def RevCounts (m : Machine) (nb ne : Nat) : Prop :=
  match m.CurrentState with
  | .WAIT_FOR_END_OF_REVERSE => nb = 1 ∧ ne = 0 ∧ m.ReverseThrustHold = true
  | .WAIT_FOR_USER => nb ≤ 1 ∧ ne ≤ 1 ∧ (nb = 1 → ne = 1)
  | _ => nb = 0 ∧ ne = 0

/-- A nominal eligible approach snapshot: 150 kt, flaps 20, gear down,
100 m above ground, throttle at 0.3. -/
def sNominal : Sensors :=
  { ThrottleRatio := ⟨3, 10, by decide, by decide⟩
    IndicatedAirSpeed := 150
    AllWheelsOnGround := false
    FlapAngle := 20
    GearDeployRatio := 1
    AltitudeAboveGround := 100 }

/-- The nominal snapshot with the gear-deployment ratio at 0.999,
just short of fully down. -/
def sGearAlmost : Sensors :=
  { sNominal with GearDeployRatio := ⟨999, 1000, by decide, by decide⟩ }

/-- The nominal snapshot with the throttle already at idle. -/
def sThrottleIdle : Sensors :=
  { sNominal with ThrottleRatio := 0 }

/-- Throttle at idle and all wheels on the ground, still at 150 kt. -/
def sWheelsDown : Sensors :=
  { sThrottleIdle with AllWheelsOnGround := true }

/-- All wheels on the ground and airspeed 50 kt, below the 60 kt
reverse-thrust minimum. -/
def sSlowRollout : Sensors :=
  { sWheelsDown with IndicatedAirSpeed := 50 }

/-- The start state with `CurrentState` replaced, for picking concrete
machines in witnesses. -/
def machineAt (st : states_t) : Machine :=
  { initialMachine with CurrentState := st }

/-- An idle machine whose deactivation flag is still raised: the
configuration left behind when `APPLY_REVERSE` transitions to idle
without consuming the flag. -/
def staleFlagMachine : Machine :=
  { CurrentState := .WAIT_FOR_USER
    DeactivationRequested := true
    ThrottleDownHold := false
    ReverseThrustHold := false }

/-- The constant `MAX_ALTITUDE` is the source's 152.4 m. -/
theorem MAX_ALTITUDE_eq : MAX_ALTITUDE = 152.4 := by
  rw [MAX_ALTITUDE, Rat.mk'_eq_divInt, Rat.divInt_eq_div]
  norm_num

/-- Membership in the violation list agrees with the four independent
error tests of `Enable` (lines 300-303). -/
theorem mem_enableViolations (v : Violation) (s : Sensors) :
    v ∈ enableViolations s ↔
      match v with
      | .AirspeedTooHigh => MAX_AIRSPEED < s.IndicatedAirSpeed
      | .FlapsTooLow => s.FlapAngle < MIN_FLAP_ANGLE
      | .GearNotDown => s.GearDeployRatio ≠ GEAR_DOWN_RATIO
      | .AltitudeTooHigh => MAX_ALTITUDE < s.AltitudeAboveGround := by
  cases v <;>
  by_cases h1 : MAX_AIRSPEED < s.IndicatedAirSpeed <;>
  by_cases h2 : s.FlapAngle < MIN_FLAP_ANGLE <;>
  by_cases h3 : s.GearDeployRatio = GEAR_DOWN_RATIO <;>
  by_cases h4 : MAX_ALTITUDE < s.AltitudeAboveGround <;>
  simp [enableViolations, h1, h2, h3, h4]

/-- The violation list is empty exactly when all four eligibility
conditions hold. -/
theorem enableViolations_eq_nil (s : Sensors) :
    enableViolations s = [] ↔
      (s.IndicatedAirSpeed ≤ MAX_AIRSPEED ∧ s.FlapAngle ≥ MIN_FLAP_ANGLE ∧
       s.GearDeployRatio = GEAR_DOWN_RATIO ∧ s.AltitudeAboveGround ≤ MAX_ALTITUDE) := by
  constructor
  · intro hnil
    have hmem : ∀ v : Violation, v ∉ enableViolations s := by
      intro v hv
      rw [hnil] at hv
      exact List.not_mem_nil v hv
    refine ⟨not_lt.mp fun hc => hmem .AirspeedTooHigh ((mem_enableViolations _ s).mpr hc),
      not_lt.mp fun hc => hmem .FlapsTooLow ((mem_enableViolations _ s).mpr hc),
      ?_,
      not_lt.mp fun hc => hmem .AltitudeTooHigh ((mem_enableViolations _ s).mpr hc)⟩
    by_contra hc
    exact hmem .GearNotDown ((mem_enableViolations _ s).mpr hc)
  · rintro ⟨hA, hF, hG, hAl⟩
    simp [enableViolations, not_lt.mpr hA, not_lt.mpr hF, hG, not_lt.mpr hAl]

/-- Claim C1: with the machine idle, `Enable` transitions to `START`
exactly when all four eligibility predicates hold; when any fails the
machine is unchanged and the advisory spoken carries exactly the set of
failed predicates, each tested independently. -/
theorem enable_from_idle_spec (m : Machine) (s : Sensors)
    (h : m.CurrentState = .WAIT_FOR_USER) :
    ((Enable m s).1.CurrentState = .START ↔
      (s.IndicatedAirSpeed ≤ MAX_AIRSPEED ∧ s.FlapAngle ≥ MIN_FLAP_ANGLE ∧
       s.GearDeployRatio = GEAR_DOWN_RATIO ∧ s.AltitudeAboveGround ≤ MAX_ALTITUDE)) ∧
    (¬(s.IndicatedAirSpeed ≤ MAX_AIRSPEED ∧ s.FlapAngle ≥ MIN_FLAP_ANGLE ∧
       s.GearDeployRatio = GEAR_DOWN_RATIO ∧ s.AltitudeAboveGround ≤ MAX_ALTITUDE) →
      (Enable m s).1 = m ∧
      (Enable m s).2 = [Spoken.violationsMsg (enableViolations s)]) ∧
    (∀ v : Violation, v ∈ enableViolations s ↔
      match v with
      | .AirspeedTooHigh => MAX_AIRSPEED < s.IndicatedAirSpeed
      | .FlapsTooLow => s.FlapAngle < MIN_FLAP_ANGLE
      | .GearNotDown => s.GearDeployRatio ≠ GEAR_DOWN_RATIO
      | .AltitudeTooHigh => MAX_ALTITUDE < s.AltitudeAboveGround) := by
  refine ⟨?_, ?_, fun v => mem_enableViolations v s⟩
  · by_cases hE : s.IndicatedAirSpeed ≤ MAX_AIRSPEED ∧ s.FlapAngle ≥ MIN_FLAP_ANGLE ∧
        s.GearDeployRatio = GEAR_DOWN_RATIO ∧ s.AltitudeAboveGround ≤ MAX_ALTITUDE
    · simp [Enable, h, hE]
    · simp [Enable, h, hE]
  · intro hNE
    have hne : enableViolations s ≠ [] := by
      rw [ne_eq, enableViolations_eq_nil]
      exact hNE
    have hlen : (enableViolations s).length > 0 := List.length_pos.mpr hne
    simp [Enable, h, hNE, hlen]

/-- Witness for C1 at the concrete snapshot with gear ratio 0.999: the
machine stays idle and speaks the gear violation. -/
theorem enable_from_idle_spec_witness :
    initialMachine.CurrentState = .WAIT_FOR_USER ∧
    ¬(sGearAlmost.IndicatedAirSpeed ≤ MAX_AIRSPEED ∧ sGearAlmost.FlapAngle ≥ MIN_FLAP_ANGLE ∧
      sGearAlmost.GearDeployRatio = GEAR_DOWN_RATIO ∧
      sGearAlmost.AltitudeAboveGround ≤ MAX_ALTITUDE) ∧
    (Enable initialMachine sGearAlmost).1 = initialMachine ∧
    (Enable initialMachine sGearAlmost).2 =
      [Spoken.violationsMsg (enableViolations sGearAlmost)] := by
  have hne : ¬(sGearAlmost.IndicatedAirSpeed ≤ MAX_AIRSPEED ∧
      sGearAlmost.FlapAngle ≥ MIN_FLAP_ANGLE ∧
      sGearAlmost.GearDeployRatio = GEAR_DOWN_RATIO ∧
      sGearAlmost.AltitudeAboveGround ≤ MAX_ALTITUDE) := by decide
  exact ⟨rfl, hne, (enable_from_idle_spec initialMachine sGearAlmost rfl).2.1 hne⟩

/-- Every host event preserves the hold/state correspondence. -/
theorem holdInv_step {m m' : Machine} (hinv : HoldInv m) (hs : Step m m') :
    HoldInv m' := by
  obtain ⟨hT, hR⟩ := hinv
  cases hs with
  | tick s _ =>
      cases hm : m.CurrentState <;>
        simp_all [StateMachine, HoldInv] <;>
        split_ifs <;> simp_all
  | activate s _ =>
      by_cases hm : m.CurrentState = .WAIT_FOR_USER
      · simp_all [Enable, HoldInv]
        split_ifs <;> simp_all
      · simp_all [Enable, HoldInv]
  | deactivate _ =>
      by_cases hm : m.CurrentState = .WAIT_FOR_USER <;>
        simp_all [requestDeactivate, HoldInv]

/-- The hold/state correspondence holds in every reachable state. -/
theorem reachable_holdInv {m : Machine} (h : Reachable m) : HoldInv m := by
  induction h with
  | init => exact ⟨by simp [initialMachine], by simp [initialMachine]⟩
  | step _ hs ih => exact holdInv_step ih hs

/-- Claim C2: in every state reachable from the initial state under any
interleaving of ticks and operator intents, the machine is never idle
while the throttle-reduction or reverse-thrust hold is active. -/
theorem idle_has_no_hold (m : Machine) (h : Reachable m)
    (hidle : m.CurrentState = .WAIT_FOR_USER) :
    m.ThrottleDownHold = false ∧ m.ReverseThrustHold = false := by
  obtain ⟨hT, hR⟩ := reachable_holdInv h
  constructor
  · cases hb : m.ThrottleDownHold
    · rfl
    · exact absurd (hT.mp hb) (by simp [hidle])
  · cases hb : m.ReverseThrustHold
    · rfl
    · exact absurd (hR.mp hb) (by simp [hidle])

/-- Witness for C2 at the initial state. -/
theorem idle_has_no_hold_witness :
    initialMachine.CurrentState = .WAIT_FOR_USER ∧
    initialMachine.ThrottleDownHold = false ∧
    initialMachine.ReverseThrustHold = false :=
  ⟨rfl, idle_has_no_hold initialMachine Reachable.init rfl⟩

/-- Claim C3: in each of the three waiting states that poll the flag, a
raised `DeactivationRequested` makes the next tick go to idle, end the
corresponding hold (throttle-down from `WAIT_FOR_IDLE_THROTTLE`,
reverse-thrust from the other two), and clear the flag, for every
sensor snapshot. -/
theorem deactivation_consumed_on_tick (m : Machine) (s : Sensors)
    (hd : m.DeactivationRequested = true)
    (hs : m.CurrentState = .WAIT_FOR_IDLE_THROTTLE ∨
      m.CurrentState = .WAIT_FOR_TOUCHDOWN ∨
      m.CurrentState = .WAIT_FOR_END_OF_REVERSE) :
    (StateMachine m s).1.CurrentState = .WAIT_FOR_USER ∧
    (StateMachine m s).1.DeactivationRequested = false ∧
    (StateMachine m s).2 =
      (if m.CurrentState = .WAIT_FOR_IDLE_THROTTLE then [Effect.endThrottleDown]
       else [Effect.endReverse]) ∧
    (if m.CurrentState = .WAIT_FOR_IDLE_THROTTLE then
      (StateMachine m s).1.ThrottleDownHold = false
     else
      (StateMachine m s).1.ReverseThrustHold = false) := by
  rcases hs with hs | hs | hs <;> simp [StateMachine, hs, hd]

/-- Witness for C3: a deactivation pending in `WAIT_FOR_IDLE_THROTTLE`
with the throttle-down hold open is consumed on the next tick. -/
theorem deactivation_consumed_on_tick_witness :
    ({ machineAt .WAIT_FOR_IDLE_THROTTLE with
        DeactivationRequested := true
        ThrottleDownHold := true } : Machine).DeactivationRequested = true ∧
    (StateMachine { machineAt .WAIT_FOR_IDLE_THROTTLE with
        DeactivationRequested := true
        ThrottleDownHold := true } sNominal).1.CurrentState = .WAIT_FOR_USER ∧
    (StateMachine { machineAt .WAIT_FOR_IDLE_THROTTLE with
        DeactivationRequested := true
        ThrottleDownHold := true } sNominal).1.DeactivationRequested = false ∧
    (StateMachine { machineAt .WAIT_FOR_IDLE_THROTTLE with
        DeactivationRequested := true
        ThrottleDownHold := true } sNominal).2 = [Effect.endThrottleDown] ∧
    (StateMachine { machineAt .WAIT_FOR_IDLE_THROTTLE with
        DeactivationRequested := true
        ThrottleDownHold := true } sNominal).1.ThrottleDownHold = false := by
  have h := deactivation_consumed_on_tick
    { machineAt .WAIT_FOR_IDLE_THROTTLE with
        DeactivationRequested := true
        ThrottleDownHold := true } sNominal rfl (Or.inl rfl)
  simpa using h

/-- Claim C5: from `START`, a zero throttle ratio goes directly to
`WAIT_FOR_TOUCHDOWN` with no actuator command, while a positive ratio
goes to `THROTTLE_DOWN` and the following tick unconditionally begins
the throttle-down hold and enters `WAIT_FOR_IDLE_THROTTLE`. -/
theorem start_tick_spec (m : Machine) (s s2 : Sensors)
    (h : m.CurrentState = .START) :
    (s.ThrottleRatio = 0 →
      (StateMachine m s).1.CurrentState = .WAIT_FOR_TOUCHDOWN ∧
      (StateMachine m s).2 = []) ∧
    (s.ThrottleRatio > 0 →
      (StateMachine m s).1.CurrentState = .THROTTLE_DOWN ∧
      (StateMachine m s).2 = [] ∧
      (StateMachine (StateMachine m s).1 s2).1.CurrentState = .WAIT_FOR_IDLE_THROTTLE ∧
      (StateMachine (StateMachine m s).1 s2).2 = [Effect.beginThrottleDown] ∧
      (StateMachine (StateMachine m s).1 s2).1.ThrottleDownHold = true) := by
  constructor
  · intro h0
    simp [StateMachine, h, h0]
  · intro hpos
    simp [StateMachine, h, hpos]

/-- Witness for C5: from `START` with throttle 0.3, the machine passes
through `THROTTLE_DOWN` and the second tick begins the hold. -/
theorem start_tick_spec_witness :
    (machineAt .START).CurrentState = .START ∧
    sNominal.ThrottleRatio > 0 ∧
    (StateMachine (machineAt .START) sNominal).1.CurrentState = .THROTTLE_DOWN ∧
    (StateMachine (StateMachine (machineAt .START) sNominal).1
      sNominal).1.CurrentState = .WAIT_FOR_IDLE_THROTTLE ∧
    (StateMachine (StateMachine (machineAt .START) sNominal).1
      sNominal).2 = [Effect.beginThrottleDown] := by
  have hpos : sNominal.ThrottleRatio > 0 := by decide
  have h := (start_tick_spec (machineAt .START) sNominal sNominal rfl).2 hpos
  exact ⟨rfl, hpos, h.1, h.2.2.1, h.2.2.2.1⟩

/-- Claim C10: from `START`, every non-positive throttle ratio
(including negative readings) goes to `WAIT_FOR_TOUCHDOWN` with no
actuator command and the throttle-down hold untouched. -/
theorem start_nonpositive_throttle (m : Machine) (s : Sensors)
    (h : m.CurrentState = .START) (ht : s.ThrottleRatio ≤ 0) :
    (StateMachine m s).1.CurrentState = .WAIT_FOR_TOUCHDOWN ∧
    (StateMachine m s).2 = [] ∧
    (StateMachine m s).1.ThrottleDownHold = m.ThrottleDownHold := by
  simp [StateMachine, h, not_lt.mpr ht]

/-- Witness for C10 at the concrete throttle reading -0.5. -/
theorem start_nonpositive_throttle_witness :
    (machineAt .START).CurrentState = .START ∧
    ({ sNominal with ThrottleRatio := -(⟨1, 2, by decide, by decide⟩ : ℚ) } :
      Sensors).ThrottleRatio ≤ 0 ∧
    (StateMachine (machineAt .START)
      { sNominal with
        ThrottleRatio := -(⟨1, 2, by decide, by decide⟩ : ℚ) }).1.CurrentState =
      .WAIT_FOR_TOUCHDOWN := by
  have ht : ({ sNominal with ThrottleRatio := -(⟨1, 2, by decide, by decide⟩ : ℚ) } :
      Sensors).ThrottleRatio ≤ 0 := by decide
  exact ⟨rfl, ht,
    (start_nonpositive_throttle (machineAt .START) _ rfl ht).1⟩

/-- Claim C6: `Enable` called while the machine is not idle leaves the
globals untouched, says only "Already enabled", and its result does not
depend on the sensor snapshot at all (no sensor is read). -/
theorem enable_not_idle_noop (m : Machine) (s s2 : Sensors)
    (h : m.CurrentState ≠ .WAIT_FOR_USER) :
    (Enable m s).1 = m ∧
    (Enable m s).2 = [Spoken.alreadyEnabled] ∧
    Enable m s = Enable m s2 := by
  simp [Enable, h]

/-- Witness for C6 with the machine in `START`, comparing two distinct
snapshots. -/
theorem enable_not_idle_noop_witness :
    (machineAt .START).CurrentState ≠ .WAIT_FOR_USER ∧
    (Enable (machineAt .START) sNominal).1 = machineAt .START ∧
    (Enable (machineAt .START) sNominal).2 = [Spoken.alreadyEnabled] ∧
    Enable (machineAt .START) sNominal = Enable (machineAt .START) sSlowRollout := by
  have h : (machineAt .START).CurrentState ≠ .WAIT_FOR_USER := by decide
  exact ⟨h, enable_not_idle_noop (machineAt .START) sNominal sSlowRollout h⟩

/-- Claim C7: the deactivation intent is silently ignored while idle and
otherwise only raises the flag; it never changes the state or a hold and
never speaks. -/
theorem request_deactivate_spec (m : Machine) :
    (m.CurrentState = .WAIT_FOR_USER → requestDeactivate m = (m, [])) ∧
    (m.CurrentState ≠ .WAIT_FOR_USER →
      requestDeactivate m = ({ m with DeactivationRequested := true }, [])) := by
  constructor
  · intro h
    simp [requestDeactivate, h]
  · intro h
    simp [requestDeactivate, h]

/-- Witness for C7 at the idle initial state and at `START`. -/
theorem request_deactivate_spec_witness :
    requestDeactivate initialMachine = (initialMachine, []) ∧
    requestDeactivate (machineAt .START) =
      ({ machineAt .START with DeactivationRequested := true }, []) :=
  ⟨(request_deactivate_spec initialMachine).1 rfl,
   (request_deactivate_spec (machineAt .START)).2 (by decide)⟩

/-- Claim C8: the gear predicate is an exact equality against 1.0: any
ratio different from 1.0 fails it, putting `GearNotDown` in the spoken
violation set and keeping the machine idle. -/
theorem gear_exact_equality (m : Machine) (s : Sensors)
    (h : m.CurrentState = .WAIT_FOR_USER)
    (hg : s.GearDeployRatio ≠ GEAR_DOWN_RATIO) :
    Violation.GearNotDown ∈ enableViolations s ∧
    (Enable m s).1 = m ∧
    (Enable m s).2 = [Spoken.violationsMsg (enableViolations s)] := by
  have hmem : Violation.GearNotDown ∈ enableViolations s :=
    (mem_enableViolations _ s).mpr hg
  have hne : ¬(s.IndicatedAirSpeed ≤ MAX_AIRSPEED ∧ s.FlapAngle ≥ MIN_FLAP_ANGLE ∧
      s.GearDeployRatio = GEAR_DOWN_RATIO ∧ s.AltitudeAboveGround ≤ MAX_ALTITUDE) := by
    rintro ⟨-, -, hG, -⟩
    exact hg hG
  have hnil : enableViolations s ≠ [] := fun hc => by
    rw [hc] at hmem
    exact List.not_mem_nil _ hmem
  have hlen : (enableViolations s).length > 0 := List.length_pos.mpr hnil
  refine ⟨hmem, ?_, ?_⟩ <;> simp [Enable, h, hne, hlen]

/-- Witness for C8 at gear ratio 0.999, arbitrarily close to but
different from 1.0. -/
theorem gear_exact_equality_witness :
    initialMachine.CurrentState = .WAIT_FOR_USER ∧
    sGearAlmost.GearDeployRatio ≠ GEAR_DOWN_RATIO ∧
    Violation.GearNotDown ∈ enableViolations sGearAlmost ∧
    (Enable initialMachine sGearAlmost).1 = initialMachine := by
  have hg : sGearAlmost.GearDeployRatio ≠ GEAR_DOWN_RATIO := by decide
  have h := gear_exact_equality initialMachine sGearAlmost rfl hg
  exact ⟨rfl, hg, h.1, h.2.1⟩

/-- The idle-with-stale-flag configuration is reachable: activate with
the throttle already idle, touch down, request deactivation while in
`APPLY_REVERSE`, and roll out below 60 kt. -/
theorem reachable_staleFlagMachine : Reachable staleFlagMachine := by
  have h1 : Reachable (machineAt .START) := by
    have h := Reachable.step Reachable.init (Step.activate sThrottleIdle initialMachine)
    have he : (Enable initialMachine sThrottleIdle).1 = machineAt .START := by decide
    rwa [he] at h
  have h2 : Reachable (machineAt .WAIT_FOR_TOUCHDOWN) := by
    have h := Reachable.step h1 (Step.tick sThrottleIdle (machineAt .START))
    have he : (StateMachine (machineAt .START) sThrottleIdle).1 =
        machineAt .WAIT_FOR_TOUCHDOWN := by decide
    rwa [he] at h
  have h3 : Reachable (machineAt .APPLY_REVERSE) := by
    have h := Reachable.step h2 (Step.tick sWheelsDown (machineAt .WAIT_FOR_TOUCHDOWN))
    have he : (StateMachine (machineAt .WAIT_FOR_TOUCHDOWN) sWheelsDown).1 =
        machineAt .APPLY_REVERSE := by decide
    rwa [he] at h
  have h4 : Reachable { machineAt .APPLY_REVERSE with DeactivationRequested := true } := by
    have h := Reachable.step h3 (Step.deactivate (machineAt .APPLY_REVERSE))
    have he : (requestDeactivate (machineAt .APPLY_REVERSE)).1 =
        { machineAt .APPLY_REVERSE with DeactivationRequested := true } := by decide
    rwa [he] at h
  have h5 := Reachable.step h4
    (Step.tick sSlowRollout { machineAt .APPLY_REVERSE with DeactivationRequested := true })
  have he : (StateMachine { machineAt .APPLY_REVERSE with DeactivationRequested := true }
      sSlowRollout).1 = staleFlagMachine := by decide
  rwa [he] at h5

/-- Claim C9: `APPLY_REVERSE` never polls the deactivation flag, so a
tick there with the flag raised and airspeed at or below the 60 kt
minimum goes to idle with the flag still set; such an idle-with-flag
state is reachable, and the flag is only cleared again by the next
eligible activation. -/
theorem apply_reverse_ignores_deactivation (m : Machine) (s : Sensors)
    (h : m.CurrentState = .APPLY_REVERSE)
    (hd : m.DeactivationRequested = true)
    (hs : s.IndicatedAirSpeed ≤ MIN_SPEED_REVERSE_THRUST) :
    ((StateMachine m s).1.CurrentState = .WAIT_FOR_USER ∧
     (StateMachine m s).1.DeactivationRequested = true) ∧
    (Reachable staleFlagMachine ∧
     staleFlagMachine.CurrentState = .WAIT_FOR_USER ∧
     staleFlagMachine.DeactivationRequested = true) ∧
    (∀ (m2 : Machine) (s2 : Sensors), m2.CurrentState = .WAIT_FOR_USER →
      s2.IndicatedAirSpeed ≤ MAX_AIRSPEED → s2.FlapAngle ≥ MIN_FLAP_ANGLE →
      s2.GearDeployRatio = GEAR_DOWN_RATIO → s2.AltitudeAboveGround ≤ MAX_ALTITUDE →
      (Enable m2 s2).1.DeactivationRequested = false ∧
      (Enable m2 s2).1.CurrentState = .START) := by
  refine ⟨?_, ⟨reachable_staleFlagMachine, rfl, rfl⟩, ?_⟩
  · simp [StateMachine, h, hd, not_lt.mpr hs]
  · intro m2 s2 hm2 hA hF hG hAl
    simp [Enable, hm2, hA, hF, hG, hAl]

/-- Witness for C9: from `APPLY_REVERSE` with the flag raised and the
rollout at 50 kt, one tick reaches idle with the flag still set. -/
theorem apply_reverse_ignores_deactivation_witness :
    ({ machineAt .APPLY_REVERSE with DeactivationRequested := true } :
      Machine).CurrentState = .APPLY_REVERSE ∧
    sSlowRollout.IndicatedAirSpeed ≤ MIN_SPEED_REVERSE_THRUST ∧
    (StateMachine { machineAt .APPLY_REVERSE with DeactivationRequested := true }
      sSlowRollout).1.CurrentState = .WAIT_FOR_USER ∧
    (StateMachine { machineAt .APPLY_REVERSE with DeactivationRequested := true }
      sSlowRollout).1.DeactivationRequested = true := by
  have hs : sSlowRollout.IndicatedAirSpeed ≤ MIN_SPEED_REVERSE_THRUST := by decide
  have h := apply_reverse_ignores_deactivation
    { machineAt .APPLY_REVERSE with DeactivationRequested := true }
    sSlowRollout rfl rfl hs
  exact ⟨rfl, hs, h.1.1, h.1.2⟩

/-- Counterexample to C4 as stated: a complete activation cycle that
never begins the reverse-thrust hold.  Activation succeeds with the
throttle already idle, all wheels touch down, but the rollout is
already at 50 kt when `APPLY_REVERSE` runs, so the cycle returns to
idle having issued zero begin and zero end commands on the
reverse-thrust hold, not exactly one of each. -/
theorem reverse_hold_once_counterexample :
    (Enable initialMachine sThrottleIdle).1 = machineAt .START ∧
    (runCycleOps (machineAt .START) [CycleOp.tick sThrottleIdle]).1.CurrentState =
      .WAIT_FOR_TOUCHDOWN ∧
    (runCycleOps (machineAt .START)
      [CycleOp.tick sThrottleIdle, CycleOp.tick sWheelsDown]).1.CurrentState =
      .APPLY_REVERSE ∧
    (runCycleOps (machineAt .START)
      [CycleOp.tick sThrottleIdle, CycleOp.tick sWheelsDown,
       CycleOp.tick sSlowRollout]).1.CurrentState = .WAIT_FOR_USER ∧
    (runCycleOps (machineAt .START)
      [CycleOp.tick sThrottleIdle, CycleOp.tick sWheelsDown,
       CycleOp.tick sSlowRollout]).2.count Effect.beginReverse = 0 ∧
    (runCycleOps (machineAt .START)
      [CycleOp.tick sThrottleIdle, CycleOp.tick sWheelsDown,
       CycleOp.tick sSlowRollout]).2.count Effect.endReverse = 0 := by
  decide

/-- One tick preserves the per-cycle reverse-thrust book-keeping. -/
theorem revCounts_tick (m : Machine) (s : Sensors) (nb ne : Nat)
    (h : RevCounts m nb ne) :
    RevCounts (StateMachine m s).1
      (nb + (StateMachine m s).2.count Effect.beginReverse)
      (ne + (StateMachine m s).2.count Effect.endReverse) := by
  cases hm : m.CurrentState <;>
    simp_all [StateMachine, RevCounts] <;>
    split_ifs <;>
    simp_all [List.count_cons, List.count_nil]

/-- Any run of ticks and deactivation requests preserves the per-cycle
reverse-thrust book-keeping. -/
theorem revCounts_run (m : Machine) (ops : List CycleOp) (nb ne : Nat)
    (h : RevCounts m nb ne) :
    RevCounts (runCycleOps m ops).1
      (nb + (runCycleOps m ops).2.count Effect.beginReverse)
      (ne + (runCycleOps m ops).2.count Effect.endReverse) := by
  induction ops generalizing m nb ne with
  | nil => simpa [runCycleOps]
  | cons op rest ih =>
      cases op with
      | tick s =>
          have h1 := revCounts_tick m s nb ne h
          have h2 := ih (StateMachine m s).1 _ _ h1
          simpa [runCycleOps, List.count_append, Nat.add_assoc] using h2
      | deactivate =>
          have h1 : RevCounts (requestDeactivate m).1 nb ne := by
            by_cases hm : m.CurrentState = .WAIT_FOR_USER <;>
              simp_all [requestDeactivate, RevCounts]
          have h2 := ih (requestDeactivate m).1 nb ne h1
          simpa [runCycleOps] using h2

/-- Claim C4 (amended): in every reachable state the reverse-thrust
hold is active exactly when the state is `WAIT_FOR_END_OF_REVERSE`;
within an activation cycle, over any run of ticks and deactivation
requests from `START`, the hold is begun at most once and ended at most
once, it is held with begin-count one while the run sits in
`WAIT_FOR_END_OF_REVERSE`, and a cycle that returns to idle after
beginning the hold also ends it exactly once. -/
theorem reverse_hold_cycle_amended :
    (∀ m : Machine, Reachable m →
      (m.ReverseThrustHold = true ↔ m.CurrentState = .WAIT_FOR_END_OF_REVERSE)) ∧
    (∀ (m : Machine) (ops : List CycleOp), m.CurrentState = .START →
      (runCycleOps m ops).2.count Effect.beginReverse ≤ 1 ∧
      (runCycleOps m ops).2.count Effect.endReverse ≤ 1 ∧
      ((runCycleOps m ops).1.CurrentState = .WAIT_FOR_END_OF_REVERSE →
        (runCycleOps m ops).1.ReverseThrustHold = true ∧
        (runCycleOps m ops).2.count Effect.beginReverse = 1 ∧
        (runCycleOps m ops).2.count Effect.endReverse = 0) ∧
      ((runCycleOps m ops).1.CurrentState = .WAIT_FOR_USER →
        (runCycleOps m ops).2.count Effect.beginReverse = 1 →
        (runCycleOps m ops).2.count Effect.endReverse = 1)) := by
  constructor
  · intro m hr
    exact (reachable_holdInv hr).2
  · intro m ops hm
    have h0 : RevCounts m 0 0 := by simp [RevCounts, hm]
    have h := revCounts_run m ops 0 0 h0
    simp only [Nat.zero_add] at h
    rcases hfs : (runCycleOps m ops).1.CurrentState <;>
      simp only [RevCounts, hfs] at h
    case WAIT_FOR_USER =>
      obtain ⟨h1, h2, h3⟩ := h
      refine ⟨h1, h2, by simp [hfs], fun _ hb => h3 hb⟩
    case WAIT_FOR_END_OF_REVERSE =>
      obtain ⟨h1, h2, h3⟩ := h
      simp [hfs, h1, h2, h3]
    all_goals obtain ⟨h1, h2⟩ := h
    all_goals simp [hfs, h1, h2]

/-- Witness for the amended C4: the initial state satisfies the hold
characterisation, and the concrete no-reverse cycle issues at most one
begin command. -/
theorem reverse_hold_cycle_amended_witness :
    (initialMachine.ReverseThrustHold = true ↔
      initialMachine.CurrentState = .WAIT_FOR_END_OF_REVERSE) ∧
    (machineAt .START).CurrentState = .START ∧
    (runCycleOps (machineAt .START)
      [CycleOp.tick sThrottleIdle, CycleOp.tick sWheelsDown,
       CycleOp.tick sSlowRollout]).2.count Effect.beginReverse ≤ 1 :=
  ⟨reverse_hold_cycle_amended.1 initialMachine Reachable.init, rfl,
   (reverse_hold_cycle_amended.2 (machineAt .START)
     [CycleOp.tick sThrottleIdle, CycleOp.tick sWheelsDown,
      CycleOp.tick sSlowRollout] rfl).1⟩

end LandingThrottleManager
